import Mathlib

/-!
Verification of the Minno Slack ingestion pipeline: a shallow embedding of
the zod event-envelope schemas (`packages/slack-client/src/types.ts` and
`events.ts`), the signature-verification middleware
(`apps/minno-server/src/middleware/slackVerify.ts`), the `/slack/events`
route (`apps/minno-server/src/routes/slack.ts`) and the SQL upsert
operations of `SessionService.ts`, together with theorems about their
behaviour.
-/

namespace Minno

/-! ## JSON values

Model of the JSON documents handled by the pipeline (request bodies and
event envelopes). Objects are association lists in insertion order;
numbers are modelled as integers (the only numeric field the schemas
touch, `event_time`, is an integer Unix time). -/

inductive Json where
  | null
  | bool (b : Bool)
  | num (n : Int)
  | str (s : String)
  | arr (elems : List Json)
  | obj (fields : List (String × Json))

/-- Lookup of a key in an object's field list (first occurrence wins,
as for a JavaScript object literal). -/
def lookupField : List (String × Json) → String → Option Json
  | [], _ => none
  | (k, v) :: rest, key => if k == key then some v else lookupField rest key

/-- Property access `j[key]`: `none` when `j` is not an object or the key
is absent (JavaScript `undefined`). -/
def getField (j : Json) (key : String) : Option Json :=
  match j with
  | Json.obj fields => lookupField fields key
  | _ => none

/-! ## zod schema combinators

Each zod object schema of `types.ts` is embedded as a function into
`Option`: `some` is a successful parse, `none` a validation failure.
The combinators mirror the zod primitives used by the schemas. -/

/-- Embeds `z.object(...)`'s requirement that the input be an object. -/
def asObj : Json → Option (List (String × Json))
  | Json.obj fields => some fields
  | _ => none

/-- Embeds a required `z.string()` field. -/
def reqStr (j : Json) (key : String) : Option String :=
  match getField j key with
  | some (Json.str s) => some s
  | _ => none

/-- Embeds a `z.string().optional()` field: absent is fine, any present
non-string value (including null) is a failure. -/
def optStr (j : Json) (key : String) : Option (Option String) :=
  match getField j key with
  | none => some none
  | some (Json.str s) => some (some s)
  | some _ => none

/-- Embeds a required `z.number()` field. -/
def reqNum (j : Json) (key : String) : Option Int :=
  match getField j key with
  | some (Json.num n) => some n
  | _ => none

/-- Embeds a required `z.boolean()` field. -/
def reqBool (j : Json) (key : String) : Option Bool :=
  match getField j key with
  | some (Json.bool b) => some b
  | _ => none

/-- Embeds a `z.boolean().optional()` field. -/
def optBool (j : Json) (key : String) : Option (Option Bool) :=
  match getField j key with
  | none => some none
  | some (Json.bool b) => some (some b)
  | some _ => none

/-- Embeds a `z.string().nullable().optional()` field: outer `none` means
absent, `some none` means JSON null. -/
def nullableOptStr (j : Json) (key : String) : Option (Option (Option String)) :=
  match getField j key with
  | none => some none
  | some Json.null => some (some none)
  | some (Json.str s) => some (some (some s))
  | some _ => none

/-- Embeds `z.literal(value)` on a string field: the field must be present
and be exactly the string `value`. -/
def litStr (j : Json) (key value : String) : Option Unit :=
  match getField j key with
  | some (Json.str s) => if s == value then some () else none
  | _ => none

/-! ## Slack event types (`packages/slack-client/src/types.ts`) -/

structure AppMentionEvent where
  user : String
  text : String
  ts : String
  channel : String
  event_ts : String
  thread_ts : Option String := none
deriving DecidableEq

structure MessageEvent where
  subtype : Option String := none
  user : Option String := none
  text : String
  ts : String
  channel : String
  event_ts : String
  thread_ts : Option String := none
  bot_id : Option String := none
deriving DecidableEq

structure ReactionItem where
  type : String
  channel : String
  ts : String
deriving DecidableEq

structure ReactionAddedEvent where
  user : String
  reaction : String
  item : ReactionItem
  event_ts : String
deriving DecidableEq

inductive SlackEvent where
  | appMention (e : AppMentionEvent)
  | message (e : MessageEvent)
  | reactionAdded (e : ReactionAddedEvent)
deriving DecidableEq

structure SlackAuthorization where
  enterprise_id : Option (Option String) := none
  team_id : String
  user_id : String
  is_bot : Bool
  is_enterprise_install : Option Bool := none
deriving DecidableEq

structure SlackEventWrapper where
  token : String
  team_id : String
  api_app_id : String
  event : SlackEvent
  event_id : String
  event_time : Int
  authorizations : Option (List SlackAuthorization) := none
deriving DecidableEq

/-- Embeds `AppMentionEventSchema.parse`. -/
def parseAppMentionEvent (j : Json) : Option AppMentionEvent := do
  let _ ← asObj j
  let _ ← litStr j "type" "app_mention"
  let user ← reqStr j "user"
  let text ← reqStr j "text"
  let ts ← reqStr j "ts"
  let channel ← reqStr j "channel"
  let event_ts ← reqStr j "event_ts"
  let thread_ts ← optStr j "thread_ts"
  pure { user, text, ts, channel, event_ts, thread_ts }

/-- Embeds `MessageEventSchema.parse`. -/
def parseMessageEvent (j : Json) : Option MessageEvent := do
  let _ ← asObj j
  let _ ← litStr j "type" "message"
  let subtype ← optStr j "subtype"
  let user ← optStr j "user"
  let text ← reqStr j "text"
  let ts ← reqStr j "ts"
  let channel ← reqStr j "channel"
  let event_ts ← reqStr j "event_ts"
  let thread_ts ← optStr j "thread_ts"
  let bot_id ← optStr j "bot_id"
  pure { subtype, user, text, ts, channel, event_ts, thread_ts, bot_id }

/-- Embeds the nested `item` object of `ReactionAddedEventSchema`. -/
def parseReactionItem (j : Json) : Option ReactionItem := do
  let _ ← asObj j
  let type ← reqStr j "type"
  let channel ← reqStr j "channel"
  let ts ← reqStr j "ts"
  pure { type, channel, ts }

/-- Embeds `ReactionAddedEventSchema.parse`. -/
def parseReactionAddedEvent (j : Json) : Option ReactionAddedEvent := do
  let _ ← asObj j
  let _ ← litStr j "type" "reaction_added"
  let user ← reqStr j "user"
  let reaction ← reqStr j "reaction"
  let itemJson ← getField j "item"
  let item ← parseReactionItem itemJson
  let event_ts ← reqStr j "event_ts"
  pure { user, reaction, item, event_ts }

/-- Embeds `SlackEventSchema.parse`: `z.union` tries each member schema in
order and fails when every member fails. -/
def parseSlackEvent (j : Json) : Option SlackEvent :=
  match parseAppMentionEvent j with
  | some e => some (SlackEvent.appMention e)
  | none =>
    match parseMessageEvent j with
    | some e => some (SlackEvent.message e)
    | none =>
      match parseReactionAddedEvent j with
      | some e => some (SlackEvent.reactionAdded e)
      | none => none

/-- Embeds the `authorizations` element schema of `SlackEventWrapperSchema`. -/
def parseAuthorization (j : Json) : Option SlackAuthorization := do
  let _ ← asObj j
  let enterprise_id ← nullableOptStr j "enterprise_id"
  let team_id ← reqStr j "team_id"
  let user_id ← reqStr j "user_id"
  let is_bot ← reqBool j "is_bot"
  let is_enterprise_install ← optBool j "is_enterprise_install"
  pure { enterprise_id, team_id, user_id, is_bot, is_enterprise_install }

/-- Embeds the `z.array(...).optional()` `authorizations` field. -/
def optAuthorizations (j : Json) : Option (Option (List SlackAuthorization)) :=
  match getField j "authorizations" with
  | none => some none
  | some (Json.arr xs) => (xs.mapM parseAuthorization).map some
  | some _ => none

/-- Embeds `parseSlackEventWrapper` of `packages/slack-client/src/events.ts`:
`SlackEventWrapperSchema.parse(body)`, with `none` standing for the thrown
zod validation error. -/
def parseSlackEventWrapper (j : Json) : Option SlackEventWrapper := do
  let _ ← asObj j
  let token ← reqStr j "token"
  let team_id ← reqStr j "team_id"
  let api_app_id ← reqStr j "api_app_id"
  let eventJson ← getField j "event"
  let event ← parseSlackEvent eventJson
  let _ ← litStr j "type" "event_callback"
  let event_id ← reqStr j "event_id"
  let event_time ← reqNum j "event_time"
  let authorizations ← optAuthorizations j
  pure { token, team_id, api_app_id, event, event_id, event_time, authorizations }

/-- The three event `type` discriminants accepted by `SlackEventSchema`:
a JSON value passes one of the three `z.literal` checks exactly when it is
one of these strings. -/
def knownEventType : Json → Bool
  | Json.str s => s == "app_mention" || s == "message" || s == "reaction_added"
  | _ => false

/-! ## Thread predicates (`packages/slack-client/src/events.ts`) -/

/-- Embeds `isThreadMessage`:
`event.thread_ts !== undefined && event.thread_ts !== event.ts`. -/
def isThreadMessage (e : MessageEvent) : Bool :=
  e.thread_ts.isSome && !(e.thread_ts == some e.ts)

/-! ## Signature-verification middleware
(`apps/minno-server/src/middleware/slackVerify.ts`)

The middleware is embedded as a pure function from the request parts it
reads (the two Slack headers and the stringified body) to the response it
produces. `Date.now()/1000` is the explicit `now` argument, and the Node
primitive `crypto.createHmac('sha256', key).update(msg).digest('hex')` is
an uninterpreted parameter `hmacHex key msg`. -/

/-- UTF-8 byte length of a string: the length of `Buffer.from(s)`. -/
def byteLength (s : String) : Nat :=
  (s.data.map Char.utf8Size).sum

/-- Embeds `crypto.timingSafeEqual(Buffer.from(a), Buffer.from(b))`: it
throws (`Except.error`) when the byte lengths differ, and otherwise
returns byte-wise equality, which for UTF-8 encodings is string
equality. -/
def timingSafeEqual (a b : String) : Except Unit Bool :=
  if byteLength a = byteLength b then Except.ok (a == b) else Except.error ()

/-- JavaScript truthiness of a `string | undefined` header value: falsy
exactly when the header is absent or the empty string (the `!signature`
and `!timestamp` guards). -/
def truthy : Option String → Bool
  | none => false
  | some s => !(s == "")

/-- Longest leading run of decimal digits. -/
def leadingDigits (cs : List Char) : List Char :=
  cs.takeWhile fun c => c.isDigit

/-- Value of a digit string. -/
def digitsToNat (ds : List Char) : Nat :=
  ds.foldl (fun n c => n * 10 + (c.toNat - 48)) 0

/-- Whitespace characters `parseInt` skips before reading digits. -/
def isJsWhitespace (c : Char) : Bool :=
  c == ' ' || c == '\t' || c == '\n' || c == '\r'

/-- Embeds `parseInt(s, 10)`: skip leading whitespace, read an optional
sign and the longest digit run; `none` is the JavaScript `NaN` result when
no digits are found. -/
def parseIntJS (s : String) : Option Int :=
  match s.data.dropWhile isJsWhitespace with
  | '-' :: rest =>
    let ds := leadingDigits rest
    if ds.isEmpty then none else some (-(digitsToNat ds : Int))
  | '+' :: rest =>
    let ds := leadingDigits rest
    if ds.isEmpty then none else some (digitsToNat ds : Int)
  | cs =>
    let ds := leadingDigits cs
    if ds.isEmpty then none else some (digitsToNat ds : Int)

/-- Embeds `Math.abs(time - requestTime) > 300` where `requestTime` may be
`NaN` (`none`): every comparison against `NaN` is false in JavaScript, so
an unparseable timestamp is never flagged as stale. -/
def staleTimestamp (now : Int) (requestTime : Option Int) : Bool :=
  match requestTime with
  | none => false
  | some t => decide (300 < (now - t).natAbs)

/-- The signature base string `` `v0:${timestamp}:${body}` ``. -/
def sigBase (timestamp body : String) : String :=
  "v0:" ++ timestamp ++ ":" ++ body

/-- The middleware's own signature `mySignature`:
`'v0=' + hmacSha256Hex(secret, sigBase)`. -/
def computedSignature (hmacHex : String → String → String)
    (secret timestamp body : String) : String :=
  "v0=" ++ hmacHex secret (sigBase timestamp body)

/-- Outcome of the middleware: a 400 response, a 401 response, or passing
the request to the next handler. -/
inductive VerifyResult where
  | badRequest (msg : String)
  | unauthorized
  | next
deriving DecidableEq

/-- True exactly on a 400 response. -/
def isBadRequest : VerifyResult → Bool
  | VerifyResult.badRequest _ => true
  | _ => false

/-- The `try/catch` block around `crypto.timingSafeEqual`: equal buffers
call `next()`, unequal buffers answer 401, and the length-mismatch
exception is caught and also answers 401. -/
def compareSignatures (supplied computed : String) : VerifyResult :=
  match timingSafeEqual supplied computed with
  | Except.ok true => VerifyResult.next
  | Except.ok false => VerifyResult.unauthorized
  | Except.error _ => VerifyResult.unauthorized

/-- Embeds the `slackVerify` middleware. Arguments: the HMAC primitive,
the configured signing secret, current Unix time `Math.floor(Date.now()/1000)`,
the two headers (`none` when absent) and the stringified request body. -/
def slackVerify (hmacHex : String → String → String) (secret : String)
    (now : Int) (signature timestamp : Option String) (body : String) :
    VerifyResult :=
  if !truthy signature || !truthy timestamp then
    VerifyResult.badRequest "Missing Slack signature headers"
  else if staleTimestamp now (parseIntJS (timestamp.getD "")) then
    VerifyResult.badRequest "Request timestamp is too old"
  else
    compareSignatures (signature.getD "")
      (computedSignature hmacHex secret (timestamp.getD "") body)

/-! ## The `/slack/events` route (`apps/minno-server/src/routes/slack.ts`)

The route runs `slackVerify` and, when the middleware calls `next()`, the
handler body. `JSON.stringify` is embedded below so the body string the
middleware signs is computed from the same parsed body the handler reads. -/

/-- Escaping of one character inside a JSON string literal, as
`JSON.stringify` performs it for the characters that occur in practice. -/
def escapeChar (c : Char) : String :=
  if c == '"' then "\\\""
  else if c == '\\' then "\\\\"
  else if c == '\n' then "\\n"
  else if c == '\r' then "\\r"
  else if c == '\t' then "\\t"
  else String.singleton c

/-- Escaping of a whole string for a JSON string literal. -/
def escapeString (s : String) : String :=
  s.data.foldl (fun acc c => acc ++ escapeChar c) ""

/-- Embeds `JSON.stringify` on the JSON model: object fields are emitted
in insertion order, without whitespace, as Node does. -/
def stringifyJson : Json → String
  | Json.null => "null"
  | Json.bool true => "true"
  | Json.bool false => "false"
  | Json.num n => toString n
  | Json.str s => "\"" ++ escapeString s ++ "\""
  | Json.arr xs =>
    "[" ++ String.intercalate "," (xs.attach.map fun x => stringifyJson x.1) ++ "]"
  | Json.obj fs =>
    "\x7b" ++
      String.intercalate ","
        (fs.attach.map fun f =>
          "\"" ++ escapeString f.1.1 ++ "\":" ++ stringifyJson f.1.2) ++
      "\x7d"
termination_by j => sizeOf j
decreasing_by
· have h := List.sizeOf_lt_of_mem x.2
  simp only [Json.arr.sizeOf_spec]
  omega
· obtain ⟨⟨k, v⟩, hf⟩ := f
  have h := List.sizeOf_lt_of_mem hf
  simp only [Prod.mk.sizeOf_spec] at h
  simp only [Json.obj.sizeOf_spec]
  omega

/-- JavaScript strict equality `v === s` between a possibly-undefined
destructured field and a string literal. -/
def isStrValue (v : Option Json) (s : String) : Bool :=
  match v with
  | some (Json.str t) => t == s
  | _ => false

/-- The response the events handler sends: `res.json({ challenge })` for
the URL-verification branch (the echoed value is the body's `challenge`
field, omitted from the JSON when absent), or the empty 200 acknowledgment
otherwise. -/
inductive SlackEventsResponse where
  | challengeJson (challenge : Option Json)
  | ack

/-- Observable outcome of the events handler: HTTP status, response body
shape, whether the `event_callback` processing branch ran, and how many
database writes were performed (the handler performs none, its processing
branch being a logging stub). -/
structure SlackEventsOutcome where
  status : Nat
  response : SlackEventsResponse
  dispatched : Bool
  dbWrites : Nat

/-- Embeds the `router.post('/events')` handler body: destructure
`type`/`challenge` from the body, echo the challenge for
`url_verification` and return, otherwise acknowledge with an empty 200 and
process `event_callback` events. -/
def handleSlackEvents (body : Json) : SlackEventsOutcome :=
  if isStrValue (getField body "type") "url_verification" then
    { status := 200
      response := SlackEventsResponse.challengeJson (getField body "challenge")
      dispatched := false
      dbWrites := 0 }
  else
    { status := 200
      response := SlackEventsResponse.ack
      dispatched := isStrValue (getField body "type") "event_callback"
      dbWrites := 0 }

/-- Result of a POST to `/slack/events`: either the middleware responded
(400/401) and the handler never ran, or the handler produced an outcome. -/
inductive RouteResult where
  | rejected (r : VerifyResult)
  | handled (o : SlackEventsOutcome)

/-- Embeds the route `slackVerify` + handler composition for
`POST /slack/events`. -/
def slackEventsPost (hmacHex : String → String → String) (secret : String)
    (now : Int) (signature timestamp : Option String) (body : Json) :
    RouteResult :=
  match slackVerify hmacHex secret now signature timestamp (stringifyJson body) with
  | VerifyResult.next => RouteResult.handled (handleSlackEvents body)
  | v => RouteResult.rejected v

/-! ## Session store (`apps/minno-server/src/services/SessionService.ts`)

The two upsert queries are embedded as functions on table states (lists of
rows plus an id counter). `ON CONFLICT ... DO UPDATE` updates the single
conflicting row, found by the unique key; `CURRENT_TIMESTAMP` is the
explicit `now : Nat` argument; SQL `NULL` is `Option.none`. -/

/-- SQL `COALESCE(new, old)` for a nullable column. -/
def coalesce (new fallback : Option String) : Option String :=
  match new with
  | some v => some v
  | none => fallback

/-- SQL `COALESCE(param, old)` where the existing column value is known to
be non-null. -/
def coalesceStr (new : Option String) (fallback : String) : String :=
  match new with
  | some v => v
  | none => fallback

/-- Replace the first element satisfying `p` (the row hit by
`ON CONFLICT ... DO UPDATE` under the unique constraint) by `u`. -/
def replaceFirst {α : Type} (p : α → Bool) (u : α) : List α → List α
  | [] => []
  | x :: xs => if p x then u :: xs else x :: replaceFirst p u xs

/-- Row of the `workspaces` table. -/
structure WorkspaceRow where
  id : Nat
  slack_team_id : String
  slack_team_name : String
  notion_workspace_id : Option String
  created_at : Nat
  updated_at : Nat
deriving DecidableEq

/-- State of the `workspaces` table. -/
structure WorkspaceTable where
  rows : List WorkspaceRow
  nextId : Nat
deriving DecidableEq

/-- Predicate for the `slack_team_id` unique key. -/
def wsKey (slackTeamId : String) (r : WorkspaceRow) : Bool :=
  r.slack_team_id == slackTeamId

/-- Number of rows stored for one `slack_team_id`. -/
def wsCount (tbl : WorkspaceTable) (slackTeamId : String) : Nat :=
  tbl.rows.countP (wsKey slackTeamId)

/-- Embeds `SessionService.upsertWorkspace`: insert, or on conflict on
`slack_team_id` overwrite the name, coalesce `notion_workspace_id` and
refresh `updated_at`; returns the new table state and the `RETURNING *`
row. -/
def upsertWorkspace (tbl : WorkspaceTable) (now : Nat)
    (slackTeamId slackTeamName : String) (notionWorkspaceId : Option String) :
    WorkspaceTable × WorkspaceRow :=
  match tbl.rows.find? (wsKey slackTeamId) with
  | some r =>
    let updated : WorkspaceRow :=
      { r with
        slack_team_name := slackTeamName
        notion_workspace_id := coalesce notionWorkspaceId r.notion_workspace_id
        updated_at := now }
    ({ tbl with rows := replaceFirst (wsKey slackTeamId) updated tbl.rows },
      updated)
  | none =>
    let inserted : WorkspaceRow :=
      { id := tbl.nextId
        slack_team_id := slackTeamId
        slack_team_name := slackTeamName
        notion_workspace_id := notionWorkspaceId
        created_at := now
        updated_at := now }
    ({ rows := tbl.rows ++ [inserted], nextId := tbl.nextId + 1 }, inserted)

/-- Row of the `minno_sessions` table. `context` holds the
`JSON.stringify`-ed context document. -/
structure MinnoSessionRow where
  id : Nat
  workspace_id : String
  slack_channel_id : String
  slack_thread_ts : String
  notion_project_id : Option String
  notion_task_id : Option String
  context : Option String
  status : String
  created_at : Nat
  updated_at : Nat
deriving DecidableEq

/-- State of the `minno_sessions` table. -/
structure SessionTable where
  rows : List MinnoSessionRow
  nextId : Nat
deriving DecidableEq

/-- The optional `data` argument of `upsertMinnoSession`. `context` is the
already-stringified document (`data?.context ? JSON.stringify(data.context) : null`
maps a present document to `some` and an absent one to `none`, an object
being always truthy). -/
structure SessionData where
  notionProjectId : Option String := none
  notionTaskId : Option String := none
  context : Option String := none
  status : Option String := none

/-- The `$7` parameter: `data?.status || 'active'`. It is never SQL NULL,
and an empty string (falsy in JavaScript) also falls back to `'active'`. -/
def statusParam : Option String → String
  | some s => if s == "" then "active" else s
  | none => "active"

/-- Predicate for the `unique_slack_thread` key
`(slack_channel_id, slack_thread_ts)`. -/
def sessionKey (slackChannelId slackThreadTs : String)
    (r : MinnoSessionRow) : Bool :=
  r.slack_channel_id == slackChannelId && r.slack_thread_ts == slackThreadTs

/-- Number of rows stored for one `(slack_channel_id, slack_thread_ts)`. -/
def sessionCount (tbl : SessionTable) (slackChannelId slackThreadTs : String) :
    Nat :=
  tbl.rows.countP (sessionKey slackChannelId slackThreadTs)

/-- Embeds `SessionService.upsertMinnoSession`: insert, or on conflict on
`(slack_channel_id, slack_thread_ts)` coalesce the linked ids, context and
status and refresh `updated_at`; returns the new table state and the
`RETURNING *` row. The status parameter is `statusParam data.status`
(never NULL), exactly as the JavaScript passes it. -/
def upsertMinnoSession (tbl : SessionTable) (now : Nat)
    (workspaceId slackChannelId slackThreadTs : String) (data : SessionData) :
    SessionTable × MinnoSessionRow :=
  match tbl.rows.find? (sessionKey slackChannelId slackThreadTs) with
  | some r =>
    let updated : MinnoSessionRow :=
      { r with
        notion_project_id := coalesce data.notionProjectId r.notion_project_id
        notion_task_id := coalesce data.notionTaskId r.notion_task_id
        context := coalesce data.context r.context
        status := coalesceStr (some (statusParam data.status)) r.status
        updated_at := now }
    ({ tbl with
        rows := replaceFirst (sessionKey slackChannelId slackThreadTs) updated tbl.rows },
      updated)
  | none =>
    let inserted : MinnoSessionRow :=
      { id := tbl.nextId
        workspace_id := workspaceId
        slack_channel_id := slackChannelId
        slack_thread_ts := slackThreadTs
        notion_project_id := data.notionProjectId
        notion_task_id := data.notionTaskId
        context := data.context
        status := statusParam data.status
        created_at := now
        updated_at := now }
    ({ rows := tbl.rows ++ [inserted], nextId := tbl.nextId + 1 }, inserted)

/-! ## Helper lemmas -/

theorem byteLength_append (a b : String) :
    byteLength (a ++ b) = byteLength a + byteLength b := by
  simp [byteLength, String.data_append]

theorem byteLength_v0sig (x : String) :
    byteLength ("v0=" ++ x) = 3 + byteLength x := by
  rw [byteLength_append, show byteLength "v0=" = 3 from by decide]

theorem computedSignature_ne_empty (hmacHex : String → String → String)
    (secret timestamp body : String) :
    computedSignature hmacHex secret timestamp body ≠ "" := by
  intro h
  have hb := congrArg byteLength h
  rw [computedSignature, byteLength_v0sig] at hb
  simp [byteLength] at hb

theorem parseIntJS_some_ne_empty {ts : String} {t : Int}
    (h : parseIntJS ts = some t) : ts ≠ "" := by
  intro hts
  rw [hts] at h
  exact Option.noConfusion h

theorem compareSignatures_self (s : String) :
    compareSignatures s s = VerifyResult.next := by
  simp [compareSignatures, timingSafeEqual]

theorem compareSignatures_mismatch {a b : String}
    (hlen : byteLength a = byteLength b) (hne : a ≠ b) :
    compareSignatures a b = VerifyResult.unauthorized := by
  have hbeq : (a == b) = false := by
    simp [hne]
  simp [compareSignatures, timingSafeEqual, hlen, hbeq]

theorem compareSignatures_lengthMismatch {a b : String}
    (hlen : byteLength a ≠ byteLength b) :
    compareSignatures a b = VerifyResult.unauthorized := by
  simp [compareSignatures, timingSafeEqual, hlen]

theorem compareSignatures_not_badRequest (a b : String) :
    isBadRequest (compareSignatures a b) = false := by
  unfold compareSignatures
  rcases timingSafeEqual a b with _ | b'
  · rfl
  · cases b' <;> rfl

theorem slackVerify_to_compare (hmacHex : String → String → String)
    (secret : String) (now : Int) (sig ts body : String)
    (hsig : sig ≠ "") (hts : ts ≠ "")
    (hstale : staleTimestamp now (parseIntJS ts) = false) :
    slackVerify hmacHex secret now (some sig) (some ts) body =
      compareSignatures sig (computedSignature hmacHex secret ts body) := by
  unfold slackVerify
  simp [truthy, hsig, hts, hstale]

/-! ## Claim theorems -/

/-- C2: for every signing secret, fresh timestamp and body, verifying the
signature the middleware itself would compute (`v0=` + HMAC-SHA256 of
`v0:{T}:{B}` under the secret) passes the request to the next handler; and
any corruption of that signature that keeps its byte length (in
particular any single-bit mutation) makes verification fail with 401. -/
theorem slackVerify_sign_then_verify (hmacHex : String → String → String)
    (secret : String) (now t : Int) (ts body : String)
    (hparse : parseIntJS ts = some t) (hfresh : (now - t).natAbs ≤ 300) :
    slackVerify hmacHex secret now
        (some (computedSignature hmacHex secret ts body)) (some ts) body =
      VerifyResult.next ∧
    ∀ sig,
      byteLength sig = byteLength (computedSignature hmacHex secret ts body) →
      sig ≠ computedSignature hmacHex secret ts body →
      slackVerify hmacHex secret now (some sig) (some ts) body =
        VerifyResult.unauthorized := by
  have hts : ts ≠ "" := parseIntJS_some_ne_empty hparse
  have hstale : staleTimestamp now (parseIntJS ts) = false := by
    rw [hparse]
    simp [staleTimestamp]
    omega
  refine ⟨?_, ?_⟩
  · rw [slackVerify_to_compare hmacHex secret now _ ts body
      (computedSignature_ne_empty hmacHex secret ts body) hts hstale]
    exact compareSignatures_self _
  · intro sig hlen hne
    have hsig : sig ≠ "" := by
      intro h
      rw [h, computedSignature, byteLength_v0sig] at hlen
      simp [byteLength] at hlen
      omega
    rw [slackVerify_to_compare hmacHex secret now sig ts body hsig hts hstale]
    exact compareSignatures_mismatch hlen hne

/-- Witness for C2 at a concrete instance: the self-computed signature
passes, and a one-character (hence one-bit-reachable, same-length)
corruption of it is answered with 401. -/
theorem slackVerify_sign_then_verify_witness :
    slackVerify (fun _ _ => "abab") "secret" 1000
        (some "v0=abab") (some "1000") "body" = VerifyResult.next ∧
    slackVerify (fun _ _ => "abab") "secret" 1000
        (some "v0=abaa") (some "1000") "body" = VerifyResult.unauthorized :=
  ⟨(slackVerify_sign_then_verify (fun _ _ => "abab") "secret" 1000 1000
      "1000" "body" (by decide) (by decide)).1,
   (slackVerify_sign_then_verify (fun _ _ => "abab") "secret" 1000 1000
      "1000" "body" (by decide) (by decide)).2 "v0=abaa" (by decide) (by decide)⟩

/-- C3: a request whose timestamp header is absent, or whose (parseable)
timestamp is more than 300 seconds from current time in either direction,
is answered 400 — whatever the supplied signature is, even the correct
one — and is never passed onward. -/
theorem slackVerify_missing_or_stale_timestamp (hmacHex : String → String → String)
    (secret : String) (now : Int) (sig : String) (hsig : sig ≠ "")
    (timestamp : Option String) (body : String)
    (h : timestamp = none ∨
      ∃ ts t, timestamp = some ts ∧ parseIntJS ts = some t ∧
        300 < (now - t).natAbs) :
    isBadRequest (slackVerify hmacHex secret now (some sig) timestamp body) =
      true := by
  rcases h with h | ⟨ts, t, hts, hp, habs⟩
  · subst h
    simp [slackVerify, truthy, hsig, isBadRequest]
  · subst hts
    have hts0 : ts ≠ "" := parseIntJS_some_ne_empty hp
    have hstale : staleTimestamp now (parseIntJS ts) = true := by
      rw [hp]
      simp [staleTimestamp]
      omega
    simp [slackVerify, truthy, hsig, hts0, hstale, isBadRequest]

/-- Witness for C3 at concrete instances: an absent timestamp and a
timestamp 1000 seconds in the past are both answered 400, with a
signature that would otherwise be the correct one. -/
theorem slackVerify_missing_or_stale_timestamp_witness :
    isBadRequest (slackVerify (fun _ _ => "abab") "secret" 1000
        (some "v0=abab") none "body") = true ∧
    isBadRequest (slackVerify (fun _ _ => "abab") "secret" 1000
        (some "v0=abab") (some "0") "body") = true :=
  ⟨slackVerify_missing_or_stale_timestamp (fun _ _ => "abab") "secret" 1000
      "v0=abab" (by decide) none "body" (Or.inl rfl),
   slackVerify_missing_or_stale_timestamp (fun _ _ => "abab") "secret" 1000
      "v0=abab" (by decide) (some "0") "body"
      (Or.inr ⟨"0", 0, rfl, by decide, by decide⟩)⟩

/-- C4: when the supplied signature's byte length differs from the
computed signature's, `crypto.timingSafeEqual` throws, the exception is
caught, and the middleware answers 401 instead of crashing (`slackVerify`
is a total function into responses; no exception escapes). -/
theorem slackVerify_wrong_length_401 (hmacHex : String → String → String)
    (secret : String) (now : Int) (sig ts body : String)
    (hsig : sig ≠ "") (hts : ts ≠ "")
    (hstale : staleTimestamp now (parseIntJS ts) = false)
    (hlen : byteLength sig ≠
      byteLength (computedSignature hmacHex secret ts body)) :
    slackVerify hmacHex secret now (some sig) (some ts) body =
      VerifyResult.unauthorized := by
  rw [slackVerify_to_compare hmacHex secret now sig ts body hsig hts hstale]
  exact compareSignatures_lengthMismatch hlen

/-- Witness for C4 at a concrete instance: a 6-byte signature against a
7-byte computed one is answered 401. -/
theorem slackVerify_wrong_length_401_witness :
    slackVerify (fun _ _ => "abab") "secret" 1000
        (some "v0=ab") (some "1000") "body" = VerifyResult.unauthorized :=
  slackVerify_wrong_length_401 (fun _ _ => "abab") "secret" 1000
    "v0=ab" "1000" "body" (by decide) (by decide) (by decide) (by decide)

/-- C10: a present but unparseable timestamp header (`parseInt` yields
`NaN`) is not rejected by the freshness check, because
`Math.abs(now - NaN) > 300` is false; the request falls through to the
signature comparison and is never answered 400. -/
theorem slackVerify_nan_timestamp_proceeds (hmacHex : String → String → String)
    (secret : String) (now : Int) (sig ts body : String)
    (hsig : sig ≠ "") (hts : ts ≠ "") (hparse : parseIntJS ts = none) :
    slackVerify hmacHex secret now (some sig) (some ts) body =
      compareSignatures sig (computedSignature hmacHex secret ts body) ∧
    isBadRequest (slackVerify hmacHex secret now (some sig) (some ts) body) =
      false := by
  have hstale : staleTimestamp now (parseIntJS ts) = false := by
    rw [hparse]
    rfl
  have heq := slackVerify_to_compare hmacHex secret now sig ts body hsig hts hstale
  refine ⟨heq, ?_⟩
  rw [heq]
  exact compareSignatures_not_badRequest _ _

/-- Witness for C10 at a concrete instance: the timestamp header "abc"
parses to NaN, yet the request reaches the signature comparison (and here
passes it, 285 seconds of staleness notwithstanding). -/
theorem slackVerify_nan_timestamp_proceeds_witness :
    slackVerify (fun _ _ => "abab") "secret" 1000
        (some "v0=abab") (some "abc") "body" =
      compareSignatures "v0=abab"
        (computedSignature (fun _ _ => "abab") "secret" "abc" "body") ∧
    isBadRequest (slackVerify (fun _ _ => "abab") "secret" 1000
        (some "v0=abab") (some "abc") "body") = false :=
  slackVerify_nan_timestamp_proceeds (fun _ _ => "abab") "secret" 1000
    "v0=abab" "abc" "body" (by decide) (by decide) (by decide)

/-- C5: `isThreadMessage` answers false on a thread root (a message whose
`thread_ts` equals its own `ts`) and true on a genuine reply (a present
`thread_ts` different from `ts`). -/
theorem isThreadMessage_root_vs_reply (e : MessageEvent) :
    (e.thread_ts = some e.ts → isThreadMessage e = false) ∧
    (∀ t, e.thread_ts = some t → t ≠ e.ts → isThreadMessage e = true) := by
  constructor
  · intro h
    simp [isThreadMessage, h]
  · intro t h hne
    simp [isThreadMessage, h, hne]

/-- Witness for C5 at concrete events: a root message (`thread_ts = ts`)
is not a thread reply, a message with a differing `thread_ts` is. -/
theorem isThreadMessage_root_vs_reply_witness :
    isThreadMessage { text := "hi", ts := "1.0", channel := "C", event_ts := "1.0", thread_ts := some "1.0" } = false ∧
    isThreadMessage { text := "hi", ts := "2.0", channel := "C", event_ts := "2.0", thread_ts := some "1.0" } = true :=
  ⟨(isThreadMessage_root_vs_reply _).1 rfl,
   (isThreadMessage_root_vs_reply _).2 "1.0" rfl (by decide)⟩

theorem litStr_eq_none_of_ne {j v : Json} {key value : String}
    (h : getField j key = some v) (hv : ∀ s, v = Json.str s → s ≠ value) :
    litStr j key value = none := by
  unfold litStr
  rw [h]
  cases v with
  | str s =>
    have : (s == value) = false := by
      simp [hv s rfl]
    simp [this]
  | null => rfl
  | bool b => rfl
  | num n => rfl
  | arr xs => rfl
  | obj fs => rfl

theorem parseAppMentionEvent_eq_none {j v : Json}
    (h : getField j "type" = some v)
    (hv : ∀ s, v = Json.str s → s ≠ "app_mention") :
    parseAppMentionEvent j = none := by
  have hl := litStr_eq_none_of_ne h hv
  unfold parseAppMentionEvent
  cases hobj : asObj j <;> simp [Bind.bind, Option.bind, hobj, hl]

theorem parseMessageEvent_eq_none {j v : Json}
    (h : getField j "type" = some v)
    (hv : ∀ s, v = Json.str s → s ≠ "message") :
    parseMessageEvent j = none := by
  have hl := litStr_eq_none_of_ne h hv
  unfold parseMessageEvent
  cases hobj : asObj j <;> simp [Bind.bind, Option.bind, hobj, hl]

theorem parseReactionAddedEvent_eq_none {j v : Json}
    (h : getField j "type" = some v)
    (hv : ∀ s, v = Json.str s → s ≠ "reaction_added") :
    parseReactionAddedEvent j = none := by
  have hl := litStr_eq_none_of_ne h hv
  unfold parseReactionAddedEvent
  cases hobj : asObj j <;> simp [Bind.bind, Option.bind, hobj, hl]

theorem parseSlackEvent_eq_none {j v : Json}
    (h : getField j "type" = some v) (hk : knownEventType v = false) :
    parseSlackEvent j = none := by
  have hstr : ∀ s, v = Json.str s →
      s ≠ "app_mention" ∧ s ≠ "message" ∧ s ≠ "reaction_added" := by
    intro s hs
    subst hs
    simp [knownEventType] at hk
    exact ⟨hk.1.1, hk.1.2, hk.2⟩
  have h1 := parseAppMentionEvent_eq_none h fun s hs => (hstr s hs).1
  have h2 := parseMessageEvent_eq_none h fun s hs => (hstr s hs).2.1
  have h3 := parseReactionAddedEvent_eq_none h fun s hs => (hstr s hs).2.2
  unfold parseSlackEvent
  rw [h1, h2, h3]

/-- C1: `parseSlackEventWrapper` fails closed on an envelope whose nested
event carries a `type` discriminant that is none of the three literals of
the `SlackEventSchema` union: every member schema's `z.literal` check
fails, the union fails, and the wrapper parse is a validation error, never
a silently coerced envelope. -/
theorem parseSlackEventWrapper_rejects_unknownType (w ev v : Json)
    (hev : getField w "event" = some ev)
    (hty : getField ev "type" = some v)
    (hk : knownEventType v = false) :
    parseSlackEventWrapper w = none := by
  have hse := parseSlackEvent_eq_none hty hk
  unfold parseSlackEventWrapper
  cases h1 : asObj w <;> simp [Bind.bind, Option.bind, h1]
  cases h2 : reqStr w "token" <;> simp [h2]
  cases h3 : reqStr w "team_id" <;> simp [h3]
  cases h4 : reqStr w "api_app_id" <;> simp [h4]
  rw [hev]
  simp [hse]

/-- Witness for C1 at a concrete envelope: an otherwise well-formed
`event_callback` wrapper whose nested event has `type: "team_join"` is
rejected by the schema. -/
theorem parseSlackEventWrapper_rejects_unknownType_witness :
    getField (Json.obj [("token", Json.str "tok"), ("team_id", Json.str "T1"), ("api_app_id", Json.str "A1"), ("event", Json.obj [("type", Json.str "team_join"), ("user", Json.str "U1")]), ("type", Json.str "event_callback"), ("event_id", Json.str "Ev1"), ("event_time", Json.num 1700000000)]) "event" =
      some (Json.obj [("type", Json.str "team_join"), ("user", Json.str "U1")]) ∧
    getField (Json.obj [("type", Json.str "team_join"), ("user", Json.str "U1")]) "type" = some (Json.str "team_join") ∧
    knownEventType (Json.str "team_join") = false ∧
    parseSlackEventWrapper (Json.obj [("token", Json.str "tok"), ("team_id", Json.str "T1"), ("api_app_id", Json.str "A1"), ("event", Json.obj [("type", Json.str "team_join"), ("user", Json.str "U1")]), ("type", Json.str "event_callback"), ("event_id", Json.str "Ev1"), ("event_time", Json.num 1700000000)]) = none :=
  ⟨rfl, rfl, by decide,
   parseSlackEventWrapper_rejects_unknownType _ _ _ rfl rfl (by decide)⟩

theorem find?_replaceFirst_of_some {α : Type} {p : α → Bool} {u : α}
    {l : List α} {a : α} (hl : l.find? p = some a) (hu : p u = true) :
    (replaceFirst p u l).find? p = some u := by
  induction l with
  | nil => simp at hl
  | cons x xs ih =>
    by_cases hx : p x
    · simp [replaceFirst, hx, List.find?_cons_of_pos, hu]
    · rw [List.find?_cons_of_neg _ hx] at hl
      simp [replaceFirst, hx, List.find?_cons_of_neg, ih hl]

theorem countP_replaceFirst {α : Type} {p : α → Bool} {u : α}
    (hu : p u = true) :
    ∀ l : List α, (replaceFirst p u l).countP p = l.countP p := by
  intro l
  induction l with
  | nil => rfl
  | cons x xs ih =>
    by_cases hx : p x
    · simp [replaceFirst, hx, List.countP_cons, hu]
    · simp [replaceFirst, hx, List.countP_cons, ih]

theorem countP_eq_zero_of_find?_none {α : Type} {p : α → Bool} {l : List α}
    (h : l.find? p = none) : l.countP p = 0 :=
  List.countP_eq_zero.mpr (List.find?_eq_none.mp h)

theorem countP_pos_of_find?_some {α : Type} {p : α → Bool} {l : List α}
    {a : α} (h : l.find? p = some a) : 1 ≤ l.countP p :=
  List.countP_pos_iff.mpr ⟨a, List.mem_of_find?_eq_some h, List.find?_some h⟩

theorem upsertWorkspace_update_spec {tbl : WorkspaceTable} {r : WorkspaceRow}
    (now : Nat) (tid name : String) (link : Option String)
    (h : tbl.rows.find? (wsKey tid) = some r) :
    (upsertWorkspace tbl now tid name link).1.rows =
      replaceFirst (wsKey tid) (upsertWorkspace tbl now tid name link).2
        tbl.rows ∧
    (upsertWorkspace tbl now tid name link).2.slack_team_id =
      r.slack_team_id ∧
    (upsertWorkspace tbl now tid name link).2.slack_team_name = name ∧
    (upsertWorkspace tbl now tid name link).2.notion_workspace_id =
      coalesce link r.notion_workspace_id ∧
    (upsertWorkspace tbl now tid name link).2.updated_at = now := by
  simp [upsertWorkspace, h]

theorem upsertWorkspace_insert_spec {tbl : WorkspaceTable}
    (now : Nat) (tid name : String) (link : Option String)
    (h : tbl.rows.find? (wsKey tid) = none) :
    (upsertWorkspace tbl now tid name link).1.rows =
      tbl.rows ++ [(upsertWorkspace tbl now tid name link).2] ∧
    (upsertWorkspace tbl now tid name link).2.slack_team_id = tid ∧
    (upsertWorkspace tbl now tid name link).2.slack_team_name = name ∧
    (upsertWorkspace tbl now tid name link).2.notion_workspace_id = link ∧
    (upsertWorkspace tbl now tid name link).2.updated_at = now := by
  simp [upsertWorkspace, h]

/-- C8: two upsert-workspace calls with the same team id and name leave
exactly one row for that id (given the unique constraint held before),
the second returned row's `updated_at` is strictly later, a `none` linked
id on the second call preserves the first call's stored link, and the name
is (over)written. -/
theorem upsertWorkspace_idempotent (tbl : WorkspaceTable) (tid name : String)
    (link : Option String) (t1 t2 : Nat)
    (hcount : wsCount tbl tid ≤ 1) (ht : t1 < t2) :
    wsCount (upsertWorkspace (upsertWorkspace tbl t1 tid name link).1
        t2 tid name none).1 tid = 1 ∧
    (upsertWorkspace tbl t1 tid name link).2.updated_at <
      (upsertWorkspace (upsertWorkspace tbl t1 tid name link).1
        t2 tid name none).2.updated_at ∧
    (upsertWorkspace (upsertWorkspace tbl t1 tid name link).1
        t2 tid name none).2.notion_workspace_id =
      (upsertWorkspace tbl t1 tid name link).2.notion_workspace_id ∧
    (upsertWorkspace (upsertWorkspace tbl t1 tid name link).1
        t2 tid name none).2.slack_team_name = name := by
  cases h1 : tbl.rows.find? (wsKey tid) with
  | none =>
    obtain ⟨hrows1, hid1, hname1, hlink1, hupd1⟩ :=
      upsertWorkspace_insert_spec t1 tid name link h1
    have hkey1 : wsKey tid (upsertWorkspace tbl t1 tid name link).2 = true := by
      simp [wsKey, hid1]
    have hfind1 : (upsertWorkspace tbl t1 tid name link).1.rows.find?
        (wsKey tid) = some (upsertWorkspace tbl t1 tid name link).2 := by
      rw [hrows1, List.find?_append, h1]
      simp [List.find?_cons_of_pos _ hkey1]
    obtain ⟨hrows2, hid2, hname2, hlink2, hupd2⟩ :=
      upsertWorkspace_update_spec t2 tid name none hfind1
    have hkey2 : wsKey tid
        (upsertWorkspace (upsertWorkspace tbl t1 tid name link).1
          t2 tid name none).2 = true := by
      simp [wsKey] at hkey1 ⊢
      rw [hid2]
      exact hkey1
    refine ⟨?_, ?_, ?_, ?_⟩
    · rw [wsCount, hrows2, countP_replaceFirst hkey2, hrows1,
        List.countP_append, countP_eq_zero_of_find?_none h1]
      simp [List.countP_cons, hkey1]
    · rw [hupd2, hupd1]
      exact ht
    · rw [hlink2]
      rfl
    · exact hname2
  | some r =>
    obtain ⟨hrows1, hid1, hname1, hlink1, hupd1⟩ :=
      upsertWorkspace_update_spec t1 tid name link h1
    have hkeyr : wsKey tid r = true := List.find?_some h1
    have hkey1 : wsKey tid (upsertWorkspace tbl t1 tid name link).2 = true := by
      simp [wsKey] at hkeyr ⊢
      rw [hid1]
      exact hkeyr
    have hfind1 : (upsertWorkspace tbl t1 tid name link).1.rows.find?
        (wsKey tid) = some (upsertWorkspace tbl t1 tid name link).2 := by
      rw [hrows1]
      exact find?_replaceFirst_of_some h1 hkey1
    obtain ⟨hrows2, hid2, hname2, hlink2, hupd2⟩ :=
      upsertWorkspace_update_spec t2 tid name none hfind1
    have hkey2 : wsKey tid
        (upsertWorkspace (upsertWorkspace tbl t1 tid name link).1
          t2 tid name none).2 = true := by
      simp [wsKey] at hkey1 ⊢
      rw [hid2]
      exact hkey1
    refine ⟨?_, ?_, ?_, ?_⟩
    · rw [wsCount, hrows2, countP_replaceFirst hkey2, hrows1,
        countP_replaceFirst hkey1]
      rw [wsCount] at hcount
      have hpos := countP_pos_of_find?_some h1
      omega
    · rw [hupd2, hupd1]
      exact ht
    · rw [hlink2]
      rfl
    · exact hname2

/-- Witness for C8 at a concrete instance: starting from the empty table,
two upserts for team `T1` named `Acme` (the first linking `N1`, the second
passing no link) leave one row, advance `updated_at` from 1 to 2, and keep
the `N1` link. -/
theorem upsertWorkspace_idempotent_witness :
    wsCount (upsertWorkspace (upsertWorkspace ({ rows := [], nextId := 0 } : WorkspaceTable) 1 "T1" "Acme" (some "N1")).1 2 "T1" "Acme" none).1 "T1" = 1 ∧
    (upsertWorkspace ({ rows := [], nextId := 0 } : WorkspaceTable) 1 "T1" "Acme" (some "N1")).2.updated_at <
      (upsertWorkspace (upsertWorkspace ({ rows := [], nextId := 0 } : WorkspaceTable) 1 "T1" "Acme" (some "N1")).1 2 "T1" "Acme" none).2.updated_at ∧
    (upsertWorkspace (upsertWorkspace ({ rows := [], nextId := 0 } : WorkspaceTable) 1 "T1" "Acme" (some "N1")).1 2 "T1" "Acme" none).2.notion_workspace_id =
      (upsertWorkspace ({ rows := [], nextId := 0 } : WorkspaceTable) 1 "T1" "Acme" (some "N1")).2.notion_workspace_id ∧
    (upsertWorkspace (upsertWorkspace ({ rows := [], nextId := 0 } : WorkspaceTable) 1 "T1" "Acme" (some "N1")).1 2 "T1" "Acme" none).2.slack_team_name = "Acme" :=
  upsertWorkspace_idempotent { rows := [], nextId := 0 } "T1" "Acme"
    (some "N1") 1 2 (by decide) (by decide)

theorem upsertMinnoSession_update_spec {tbl : SessionTable}
    {r : MinnoSessionRow} (now : Nat) (wid ch th : String)
    (data : SessionData)
    (h : tbl.rows.find? (sessionKey ch th) = some r) :
    (upsertMinnoSession tbl now wid ch th data).1.rows =
      replaceFirst (sessionKey ch th)
        (upsertMinnoSession tbl now wid ch th data).2 tbl.rows ∧
    (upsertMinnoSession tbl now wid ch th data).2.slack_channel_id =
      r.slack_channel_id ∧
    (upsertMinnoSession tbl now wid ch th data).2.slack_thread_ts =
      r.slack_thread_ts ∧
    (upsertMinnoSession tbl now wid ch th data).2.notion_project_id =
      coalesce data.notionProjectId r.notion_project_id ∧
    (upsertMinnoSession tbl now wid ch th data).2.notion_task_id =
      coalesce data.notionTaskId r.notion_task_id ∧
    (upsertMinnoSession tbl now wid ch th data).2.context =
      coalesce data.context r.context ∧
    (upsertMinnoSession tbl now wid ch th data).2.status =
      statusParam data.status ∧
    (upsertMinnoSession tbl now wid ch th data).2.updated_at = now := by
  simp [upsertMinnoSession, h, coalesceStr]

/-- C6: an upsert-session for an existing `(channel, thread)` key whose
optional context, project id and task id are all absent merges into the
existing row: the key still has exactly one row, that row is the returned
one, and the stored context, project id and task id are preserved rather
than nulled. -/
theorem upsertMinnoSession_merge_preserves (tbl : SessionTable) (now : Nat)
    (wid ch th : String) (st : Option String) (r : MinnoSessionRow)
    (hfind : tbl.rows.find? (sessionKey ch th) = some r)
    (hcount : sessionCount tbl ch th ≤ 1) :
    sessionCount (upsertMinnoSession tbl now wid ch th
      { notionProjectId := none, notionTaskId := none, context := none, status := st }).1 ch th = 1 ∧
    (upsertMinnoSession tbl now wid ch th
      { notionProjectId := none, notionTaskId := none, context := none, status := st }).2.context = r.context ∧
    (upsertMinnoSession tbl now wid ch th
      { notionProjectId := none, notionTaskId := none, context := none, status := st }).2.notion_project_id = r.notion_project_id ∧
    (upsertMinnoSession tbl now wid ch th
      { notionProjectId := none, notionTaskId := none, context := none, status := st }).2.notion_task_id = r.notion_task_id ∧
    (upsertMinnoSession tbl now wid ch th
      { notionProjectId := none, notionTaskId := none, context := none, status := st }).1.rows.find? (sessionKey ch th) =
      some (upsertMinnoSession tbl now wid ch th
        { notionProjectId := none, notionTaskId := none, context := none, status := st }).2 := by
  obtain ⟨hrows, hch, hth, hproj, htask, hctx, hstat, hupd⟩ :=
    upsertMinnoSession_update_spec now wid ch th
      { notionProjectId := none, notionTaskId := none, context := none,
        status := st } hfind
  have hkeyr : sessionKey ch th r = true := List.find?_some hfind
  have hkey : sessionKey ch th (upsertMinnoSession tbl now wid ch th
      { notionProjectId := none, notionTaskId := none, context := none,
        status := st }).2 = true := by
    simp [sessionKey] at hkeyr ⊢
    rw [hch, hth]
    exact hkeyr
  refine ⟨?_, ?_, ?_, ?_, ?_⟩
  · rw [sessionCount, hrows, countP_replaceFirst hkey]
    rw [sessionCount] at hcount
    have hpos := countP_pos_of_find?_some hfind
    omega
  · rw [hctx]
    rfl
  · rw [hproj]
    rfl
  · rw [htask]
    rfl
  · rw [hrows]
    exact find?_replaceFirst_of_some hfind hkey

/-- Witness for C6 at a concrete instance: a second upsert with no
optional data for an existing session keeps its one row and its stored
context, project id and task id. -/
theorem upsertMinnoSession_merge_preserves_witness :
    sessionCount (upsertMinnoSession ({ rows := [{ id := 0, workspace_id := "W1", slack_channel_id := "C1", slack_thread_ts := "111.222", notion_project_id := some "P1", notion_task_id := some "K1", context := some "ctx", status := "active", created_at := 0, updated_at := 0 }], nextId := 1 } : SessionTable) 5 "W1" "C1" "111.222" { notionProjectId := none, notionTaskId := none, context := none, status := none }).1 "C1" "111.222" = 1 ∧
    (upsertMinnoSession ({ rows := [{ id := 0, workspace_id := "W1", slack_channel_id := "C1", slack_thread_ts := "111.222", notion_project_id := some "P1", notion_task_id := some "K1", context := some "ctx", status := "active", created_at := 0, updated_at := 0 }], nextId := 1 } : SessionTable) 5 "W1" "C1" "111.222" { notionProjectId := none, notionTaskId := none, context := none, status := none }).2.context = some "ctx" ∧
    (upsertMinnoSession ({ rows := [{ id := 0, workspace_id := "W1", slack_channel_id := "C1", slack_thread_ts := "111.222", notion_project_id := some "P1", notion_task_id := some "K1", context := some "ctx", status := "active", created_at := 0, updated_at := 0 }], nextId := 1 } : SessionTable) 5 "W1" "C1" "111.222" { notionProjectId := none, notionTaskId := none, context := none, status := none }).2.notion_project_id = some "P1" ∧
    (upsertMinnoSession ({ rows := [{ id := 0, workspace_id := "W1", slack_channel_id := "C1", slack_thread_ts := "111.222", notion_project_id := some "P1", notion_task_id := some "K1", context := some "ctx", status := "active", created_at := 0, updated_at := 0 }], nextId := 1 } : SessionTable) 5 "W1" "C1" "111.222" { notionProjectId := none, notionTaskId := none, context := none, status := none }).2.notion_task_id = some "K1" ∧
    (upsertMinnoSession ({ rows := [{ id := 0, workspace_id := "W1", slack_channel_id := "C1", slack_thread_ts := "111.222", notion_project_id := some "P1", notion_task_id := some "K1", context := some "ctx", status := "active", created_at := 0, updated_at := 0 }], nextId := 1 } : SessionTable) 5 "W1" "C1" "111.222" { notionProjectId := none, notionTaskId := none, context := none, status := none }).1.rows.find? (sessionKey "C1" "111.222") =
      some (upsertMinnoSession ({ rows := [{ id := 0, workspace_id := "W1", slack_channel_id := "C1", slack_thread_ts := "111.222", notion_project_id := some "P1", notion_task_id := some "K1", context := some "ctx", status := "active", created_at := 0, updated_at := 0 }], nextId := 1 } : SessionTable) 5 "W1" "C1" "111.222" { notionProjectId := none, notionTaskId := none, context := none, status := none }).2 :=
  upsertMinnoSession_merge_preserves _ 5 "W1" "C1" "111.222" none
    { id := 0, workspace_id := "W1", slack_channel_id := "C1", slack_thread_ts := "111.222", notion_project_id := some "P1", notion_task_id := some "K1", context := some "ctx", status := "active", created_at := 0, updated_at := 0 }
    (by decide) (by decide)

/-- C7 failing input: a stored session whose status is `completed`
upserted again with an absent status argument comes back with status
`active` — the JavaScript passes `data?.status || 'active'` as the status
parameter, so the SQL `COALESCE($7, minno_sessions.status)` never sees
NULL and the stored status is overwritten rather than preserved. -/
theorem upsertMinnoSession_status_reset :
    (upsertMinnoSession ({ rows := [{ id := 0, workspace_id := "W1", slack_channel_id := "C1", slack_thread_ts := "111.222", notion_project_id := none, notion_task_id := none, context := none, status := "completed", created_at := 0, updated_at := 0 }], nextId := 1 } : SessionTable) 5 "W1" "C1" "111.222" { notionProjectId := none, notionTaskId := none, context := none, status := none }).2.status = "active" := rfl

/-- C9: a POST to `/slack/events` whose body has type `url_verification`
and which passes signature verification is answered by the handler with a
200 JSON response echoing the body's `challenge` value, without reaching
the event-dispatch branch and with no database write. -/
theorem slackEventsPost_url_verification (hmacHex : String → String → String)
    (secret : String) (now : Int) (signature timestamp : Option String)
    (body : Json)
    (hverify : slackVerify hmacHex secret now signature timestamp
      (stringifyJson body) = VerifyResult.next)
    (htype : getField body "type" = some (Json.str "url_verification")) :
    slackEventsPost hmacHex secret now signature timestamp body =
      RouteResult.handled
        { status := 200
          response :=
            SlackEventsResponse.challengeJson (getField body "challenge")
          dispatched := false
          dbWrites := 0 } := by
  unfold slackEventsPost
  rw [hverify]
  unfold handleSlackEvents
  rw [htype]
  simp [isStrValue]

/-- Witness for C9 at the spec's end-to-end scenario: the body
`{"type":"url_verification","challenge":"abc123"}` with a valid signature
is answered 200 with the challenge echoed, nothing dispatched and no
database write. -/
theorem slackEventsPost_url_verification_witness :
    slackEventsPost (fun _ _ => "abab") "secret" 1000 (some "v0=abab")
        (some "1000")
        (Json.obj [("type", Json.str "url_verification"), ("challenge", Json.str "abc123")]) =
      RouteResult.handled
        { status := 200
          response := SlackEventsResponse.challengeJson (some (Json.str "abc123"))
          dispatched := false
          dbWrites := 0 } :=
  slackEventsPost_url_verification (fun _ _ => "abab") "secret" 1000
    (some "v0=abab") (some "1000")
    (Json.obj [("type", Json.str "url_verification"), ("challenge", Json.str "abc123")])
    (by decide) rfl

end Minno
